import Mathlib

/-!
Shallow embedding of `src/config.py` and `src/assistant.py` of the
`mximoph-knowledge-ai` repository (a PDF knowledge assistant CLI).

External libraries (sentence-transformers, sqlalchemy, phi, pydantic) are
modelled as explicit environments supplying the results of the external
calls; the script's own control flow (logging, dimension check, try/except,
`sys.exit`, session resolution, call order) is translated faithfully from
the Python source.  Stateful behaviour is explicit state passing; side
effects (log lines, database events, setup steps) are returned as traces.
-/

namespace KnowledgeAI

/-- Python exceptions that arise in this script, tagged by class so the
`except SQLAlchemyError` vs `except Exception` distinction is expressible.
`msg` is `str(e)`. -/
inductive Exn where
  | valueError (msg : String)
  | sqlAlchemyError (msg : String)
  | otherError (msg : String)
deriving DecidableEq, Repr

/-- `str(e)` of an exception. -/
def Exn.msg : Exn → String
  | .valueError m => m
  | .sqlAlchemyError m => m
  | .otherError m => m

/-- Whether the exception is (a subclass of) `sqlalchemy.exc.SQLAlchemyError`. -/
def Exn.isSQLAlchemyError : Exn → Bool
  | .sqlAlchemyError _ => true
  | _ => false

/-- Log levels used by the script (`logger.info` / `logger.error`). -/
inductive LogLevel where
  | info
  | error
deriving DecidableEq, Repr

/-- One emitted log line. -/
structure LogEntry where
  level : LogLevel
  msg : String
deriving DecidableEq, Repr

/-- How a Python call terminates: normal return, an exception propagating
to the caller, or process termination via `sys.exit code`. -/
inductive Outcome (ε : Type) (α : Type) where
  | ok (a : α)
  | raised (e : ε)
  | exited (code : Nat)
deriving DecidableEq, Repr

/-- `class AppConfig(BaseModel)` from `src/assistant.py` (lines 36-58):
the application configuration model with its field defaults. -/
structure AppConfig where
  db_url : String := "postgresql+psycopg://ai:ai@localhost:5532/ai"
  collection_name : String := "science_docs"
  embedder_model : String := "all-MiniLM-L6-v2"
  embedder_dim : Nat := 384
  table_name : String := "science_assistant"
deriving DecidableEq, Repr

/-- `config = AppConfig()` (src/assistant.py line 59): a plain pydantic
`BaseModel` constructed with no arguments takes every field's default;
`BaseModel` (unlike `BaseSettings`) reads no environment variables. -/
def config : AppConfig := {}

/-- The process environment (after `load_dotenv()` merged the `.env` file
into it): a lookup from variable name to value. -/
structure EnvMap where
  get : String → Option String

/-- The module-level statement `config = AppConfig()` in `src/assistant.py`
run in a given process environment.  `AppConfig` is a pydantic `BaseModel`,
not `BaseSettings`, so the construction ignores the environment entirely
and yields the field defaults. -/
def assistant_config (_env : EnvMap) : AppConfig := config

/-- `class Settings(BaseSettings)` from `src/config.py`: field values with
their defaults. -/
structure Settings where
  DB_URL : String
  EMBEDDER_MODEL : String
  EMBEDDING_DIM : Int
  COLLECTION_NAME : String
  TABLE_NAME : String
deriving DecidableEq, Repr

/-- `settings = Settings()` from `src/config.py`, i.e. pydantic
`BaseSettings` construction: each field is taken from the environment
variable of the same name when present (the `.env` file having been merged
by `env_file = ".env"`), else from the declared default; a non-integer
value for `EMBEDDING_DIM` is a validation error. -/
def loadSettings (env : EnvMap) : Except String Settings :=
  match env.get "EMBEDDING_DIM" with
  | some s =>
    match s.toInt? with
    | some n =>
      Except.ok
        { DB_URL := (env.get "DB_URL").getD "postgresql+psycopg://ai:ai@localhost:5532/ai"
          EMBEDDER_MODEL := (env.get "EMBEDDER_MODEL").getD "all-MiniLM-L6-v2"
          EMBEDDING_DIM := n
          COLLECTION_NAME := (env.get "COLLECTION_NAME").getD "science_docs"
          TABLE_NAME := (env.get "TABLE_NAME").getD "science_assistant" }
    | none => Except.error ("validation error for EMBEDDING_DIM: " ++ s)
  | none =>
    Except.ok
      { DB_URL := (env.get "DB_URL").getD "postgresql+psycopg://ai:ai@localhost:5532/ai"
        EMBEDDER_MODEL := (env.get "EMBEDDER_MODEL").getD "all-MiniLM-L6-v2"
        EMBEDDING_DIM := 384
        COLLECTION_NAME := (env.get "COLLECTION_NAME").getD "science_docs"
        TABLE_NAME := (env.get "TABLE_NAME").getD "science_assistant" }

section Embedder

-- Embedding scalar type: the numeric entries of an embedding vector are
-- opaque to this script, which only measures the vector's length.
variable {α : Type}

/-- A loaded `SentenceTransformer` model, seen through the one method this
script calls: `model.encode(text).tolist()`, which either returns a vector
or raises. -/
structure SentenceTransformer (α : Type) where
  encode : String → Except Exn (List α)

/-- Environment for the embedding adapter: what `SentenceTransformer(name)`
loads for a given model name. -/
structure HfEnv (α : Type) where
  loadModel : String → SentenceTransformer α

/-- `class HfEmbedder(Embedder)` (src/assistant.py lines 61-64): the
adapter's state is the frozen `model_name` and the lazily filled private
`_model` field (initially `None`). -/
structure HfEmbedder (α : Type) where
  model_name : String := config.embedder_model
  _model : Option (SentenceTransformer α) := none

/-- The `model` property (src/assistant.py lines 66-72): lazy loading.
Returns the updated adapter state, the model handle, and the log lines
emitted by the access. -/
def HfEmbedder.model (e : HfEmbedder α) (env : HfEnv α) :
    HfEmbedder α × SentenceTransformer α × List LogEntry :=
  match e._model with
  | none =>
    let m := env.loadModel e.model_name
    ({ e with _model := some m }, m,
      [⟨.info, "Loading embedding model: " ++ e.model_name⟩])
  | some m => (e, m, [])

/-- The metadata dictionary returned beside an embedding:
`{"model": self.model_name, "usage": {"total_tokens": 0}}`. -/
structure EmbedUsage where
  model : String
  total_tokens : Nat
deriving DecidableEq, Repr

/-- `HfEmbedder.get_embedding_and_usage` (src/assistant.py lines 74-84):
encode the text, check the vector length against `config.embedder_dim`
(raising `ValueError` on mismatch), and wrap everything in a
`try/except Exception` that logs and re-raises. -/
def HfEmbedder.get_embedding_and_usage (e : HfEmbedder α) (env : HfEnv α)
    (text : String) :
    HfEmbedder α × List LogEntry × Outcome Exn (List α × EmbedUsage) :=
  let (e₁, m, logs) := e.model env
  match m.encode text with
  | .error exn =>
    (e₁, logs ++ [⟨.error, "Embedding generation failed: " ++ exn.msg⟩],
      .raised exn)
  | .ok embedding =>
    if embedding.length ≠ config.embedder_dim then
      let exn := Exn.valueError "Embedding dimension mismatch"
      (e₁,
        logs ++
          [⟨.error, "Embedding dimension mismatch: Expected " ++
              toString config.embedder_dim ++ ", got " ++
              toString embedding.length⟩,
            ⟨.error, "Embedding generation failed: " ++ exn.msg⟩],
        .raised exn)
    else
      (e₁, logs, .ok (embedding, ⟨e.model_name, 0⟩))

end Embedder

/-- Events on the database connection opened by `setup_database`. -/
inductive DbEvent where
  | connect
  | execute (sql : String)
  | commit
  | close
deriving DecidableEq, Repr

/-- Environment for `setup_database`: the results of the three external
database operations it performs (any of which may raise). -/
structure DbEnv where
  connectResult : Except Exn Unit
  executeResult : Except Exn Unit
  commitResult : Except Exn Unit

/-- The single SQL statement `setup_database` executes. -/
def vectorExtensionSql : String := "CREATE EXTENSION IF NOT EXISTS vector"

/-- `setup_database` (src/assistant.py lines 86-97): create an engine,
open a connection in a `with` block, execute the extension statement,
commit; the `with` block closes the connection on scope exit (also when
the body raises).  `except SQLAlchemyError` logs and calls `sys.exit(1)`;
any other exception propagates.  Returns the log lines, the trace of
connection events, and the outcome. -/
def setup_database (env : DbEnv) :
    List LogEntry × List DbEvent × Outcome Exn Unit :=
  let logs : List LogEntry := [⟨.info, "Initializing database connection"⟩]
  match env.connectResult with
  | .error e =>
    if e.isSQLAlchemyError then
      (logs ++ [⟨.error, "Database setup failed: " ++ e.msg⟩],
        [.connect], .exited 1)
    else (logs, [.connect], .raised e)
  | .ok _ =>
    match env.executeResult with
    | .error e =>
      if e.isSQLAlchemyError then
        (logs ++ [⟨.error, "Database setup failed: " ++ e.msg⟩],
          [.connect, .execute vectorExtensionSql, .close], .exited 1)
      else (logs, [.connect, .execute vectorExtensionSql, .close], .raised e)
    | .ok _ =>
      match env.commitResult with
      | .error e =>
        if e.isSQLAlchemyError then
          (logs ++ [⟨.error, "Database setup failed: " ++ e.msg⟩],
            [.connect, .execute vectorExtensionSql, .commit, .close],
            .exited 1)
        else
          (logs, [.connect, .execute vectorExtensionSql, .commit, .close],
            .raised e)
      | .ok _ =>
        (logs ++ [⟨.info, "Database extension setup completed"⟩],
          [.connect, .execute vectorExtensionSql, .commit, .close],
          .ok ())

/-- `PgVector2` (external) as constructed by `create_vector_db`: this code
only supplies its constructor arguments. -/
structure PgVector2 (α : Type) where
  collection : String
  db_url : String
  embedder : HfEmbedder α
  dim : Nat

/-- `create_vector_db` (src/assistant.py lines 99-106). -/
def create_vector_db (α : Type) : PgVector2 α :=
  { collection := config.collection_name
    db_url := config.db_url
    embedder := {}
    dim := config.embedder_dim }

/-- The fixed PDF URL loaded by `create_knowledge_base`. -/
def pdfUrl : String :=
  "https://www.nobelprize.org/uploads/2024/10/advanced-chemistryprize2024.pdf"

/-- `PDFUrlKnowledgeBase` (external) as constructed by
`create_knowledge_base`: this code only supplies its arguments. -/
structure PDFUrlKnowledgeBase (α : Type) where
  urls : List String
  vector_db : PgVector2 α

/-- Environment for `create_knowledge_base`: the result of the external
`knowledge_base.load(recreate=False)` call, which may raise. -/
structure KbEnv (α : Type) where
  load : PDFUrlKnowledgeBase α → Bool → Except Exn Unit

/-- `create_knowledge_base` (src/assistant.py lines 108-121): construct the
knowledge base over the fixed PDF URL and `load(recreate=False)` it;
`except Exception` logs and calls `sys.exit(1)`. -/
def create_knowledge_base {α : Type} (env : KbEnv α) (vector_db : PgVector2 α) :
    List LogEntry × Outcome Exn (PDFUrlKnowledgeBase α) :=
  let logs : List LogEntry := [⟨.info, "Creating knowledge base"⟩]
  let kb : PDFUrlKnowledgeBase α := { urls := [pdfUrl], vector_db := vector_db }
  let logs := logs ++ [⟨.info, "Loading documents into vector database"⟩]
  match env.load kb false with
  | .error e =>
    (logs ++ [⟨.error, "Knowledge base creation failed: " ++ e.msg⟩],
      .exited 1)
  | .ok _ => (logs, .ok kb)

/-- `PgAssistantStorage` (external) as constructed by `main`: this code
only supplies its arguments. -/
structure PgAssistantStorage where
  table_name : String
  db_url : String
deriving DecidableEq, Repr

/-- `Assistant` (external) as constructed by `main`: the arguments `main`
passes to the framework's constructor. -/
structure Assistant (α : Type) where
  run_id : Option String
  user_id : String
  knowledge_base : PDFUrlKnowledgeBase α
  storage : PgAssistantStorage
  tools : List Unit
  show_tool_calls : Bool
  read_chat_history : Bool

/-- The setup steps of `main`, in the order they are observed. -/
inductive MainEvent where
  | setupDatabase
  | createVectorDb
  | createKnowledgeBase
  | mkStorage (table_name : String) (db_url : String)
  | getAllRunIds (user_id : String)
  | mkAssistant (run_id : Option String) (user_id : String)
  | cliApp
deriving DecidableEq, Repr

/-- The whole external world `main` runs against: the database, the
knowledge-base loader, and the run IDs the assistant storage holds per
user (`storage.get_all_run_ids`). -/
structure World (α : Type) where
  db : DbEnv
  kb : KbEnv α
  run_ids : String → List String

/-- `str(run_id)` for the `Optional[str]` session ID, as Python prints it. -/
def optRunIdStr : Option String → String
  | none => "None"
  | some s => s

/-- `main` (src/assistant.py lines 123-156): database setup, vector store,
knowledge base, storage, resume-or-create the session, construct the
`Assistant`, then hand control to `assistant.cli_app`.  A `sys.exit` from
a setup step propagates (nothing in `main` catches it).  Returns the log
lines, the trace of setup steps, and the outcome. -/
def main {α : Type} (w : World α) (new_session : Bool := false)
    (user_id : String := "default_user") :
    List LogEntry × List MainEvent × Outcome Exn Unit :=
  let (l₁, _dbEvents, o₁) := setup_database w.db
  match o₁ with
  | .exited c => (l₁, [.setupDatabase], .exited c)
  | .raised e => (l₁, [.setupDatabase], .raised e)
  | .ok _ =>
    let vector_db := create_vector_db α
    let (l₂, o₂) := create_knowledge_base w.kb vector_db
    match o₂ with
    | .exited c =>
      (l₁ ++ l₂, [.setupDatabase, .createVectorDb, .createKnowledgeBase],
        .exited c)
    | .raised e =>
      (l₁ ++ l₂, [.setupDatabase, .createVectorDb, .createKnowledgeBase],
        .raised e)
    | .ok knowledge_base =>
      let storage : PgAssistantStorage :=
        { table_name := config.table_name, db_url := config.db_url }
      let (run_id, l₃, tr₃) :
          Option String × List LogEntry × List MainEvent :=
        if new_session then (none, [], [])
        else
          match w.run_ids user_id with
          | [] => (none, [], [.getAllRunIds user_id])
          | r :: _ =>
            (some r, [⟨.info, "Resuming existing session: " ++ r⟩],
              [.getAllRunIds user_id])
      let assistant : Assistant α :=
        { run_id := run_id
          user_id := user_id
          knowledge_base := knowledge_base
          storage := storage
          tools := []
          show_tool_calls := true
          read_chat_history := true }
      let l₄ : List LogEntry :=
        [⟨.info, "Starting assistant session: " ++ optRunIdStr assistant.run_id⟩]
      (l₁ ++ l₂ ++ l₃ ++ l₄,
        [.setupDatabase, .createVectorDb, .createKnowledgeBase,
            .mkStorage config.table_name config.db_url] ++
          tr₃ ++ [.mkAssistant run_id user_id, .cliApp],
        .ok ())

/-! ### Concrete environments used by the witnesses -/

/-- A model environment whose encoder always returns a 2-element vector
(the wrong dimension). -/
def badEnv : HfEnv Int := ⟨fun _ => ⟨fun _ => Except.ok [0, 0]⟩⟩

/-- A model environment whose encoder always returns a 384-element vector
(the configured dimension). -/
def goodEnv : HfEnv Int := ⟨fun _ => ⟨fun _ => Except.ok (List.replicate 384 0)⟩⟩

/-- A model environment whose encoder always raises. -/
def errEnv : HfEnv Int := ⟨fun _ => ⟨fun _ => Except.error (Exn.otherError "boom")⟩⟩

/-! ### Claim theorems -/

/-- C1: whenever the underlying model returns an embedding whose length
differs from the configured `config.embedder_dim` (which is 384),
`get_embedding_and_usage` logs a dimension-mismatch error and raises
`ValueError("Embedding dimension mismatch")`; when the length matches, no
error is raised and the embedding is returned (with the usage metadata). -/
theorem get_embedding_dimension_check {α : Type} (env : HfEnv α)
    (e : HfEmbedder α) (text : String) (l : List α)
    (henc : ((e.model env).2.1).encode text = Except.ok l) :
    config.embedder_dim = 384 ∧
    (l.length ≠ config.embedder_dim →
      (e.get_embedding_and_usage env text).2.2 =
          Outcome.raised (Exn.valueError "Embedding dimension mismatch") ∧
        (⟨LogLevel.error,
            "Embedding dimension mismatch: Expected " ++
              toString config.embedder_dim ++ ", got " ++
              toString l.length⟩ : LogEntry) ∈
          (e.get_embedding_and_usage env text).2.1) ∧
    (l.length = config.embedder_dim →
      (e.get_embedding_and_usage env text).2.2 =
        Outcome.ok (l, ⟨e.model_name, 0⟩)) := by
  rcases hm : e.model env with ⟨e₁, m, logs⟩
  have henc' : m.encode text = Except.ok l := by simpa [hm] using henc
  refine ⟨rfl, ?_, ?_⟩
  · intro hne
    simp [HfEmbedder.get_embedding_and_usage, hm, henc', hne]
  · intro heq
    simp [HfEmbedder.get_embedding_and_usage, hm, henc', heq]

/-- Witness for C1: on a fresh embedder whose model returns a 2-element
vector, the call raises the dimension-mismatch `ValueError`. -/
theorem get_embedding_dimension_check_witness :
    (HfEmbedder.get_embedding_and_usage {} badEnv "q").2.2 =
      Outcome.raised (Exn.valueError "Embedding dimension mismatch") :=
  ((get_embedding_dimension_check badEnv {} "q" [0, 0] rfl).2.1
    (by decide)).1

/-- C7: the `model` property memoizes the loaded model.  After one access
the adapter caches the handle; a second access returns the same state and
the same handle with no log output, and on a fresh adapter the first
access loads `loadModel model_name` and stores it. -/
theorem model_property_memoizes {α : Type} (env : HfEnv α) (e : HfEmbedder α) :
    ((e.model env).1.model env) =
        ((e.model env).1, (e.model env).2.1, ([] : List LogEntry)) ∧
    (e.model env).1._model = some (e.model env).2.1 ∧
    (e._model = none →
      (e.model env).2.1 = env.loadModel e.model_name ∧
      (e.model env).1 = { e with _model := some (env.loadModel e.model_name) }) := by
  cases h : e._model with
  | none => simp [HfEmbedder.model, h]
  | some m => simp [HfEmbedder.model, h]

/-- Witness for C7: on a fresh adapter against a concrete environment, a
second access of `model` returns the cached state, handle, and no logs,
and the first access stored the freshly loaded model. -/
theorem model_property_memoizes_witness :
    ((HfEmbedder.model {} badEnv).1.model badEnv) =
        ((HfEmbedder.model {} badEnv).1, (HfEmbedder.model {} badEnv).2.1,
          ([] : List LogEntry)) ∧
    (HfEmbedder.model {} badEnv).2.1 =
      badEnv.loadModel (({} : HfEmbedder Int)).model_name :=
  ⟨(model_property_memoizes badEnv {}).1,
    ((model_property_memoizes badEnv {}).2.2 rfl).1⟩

/-- C8: any exception arising during embedding generation is logged and
re-raised unchanged: an encoder exception propagates as-is with an error
log line, the call never terminates the process, and it returns a result
only when encoding succeeded with the configured dimension (it never
swallows a failure). -/
theorem embedding_error_reraised {α : Type} (env : HfEnv α)
    (e : HfEmbedder α) (text : String) :
    (∀ exn, ((e.model env).2.1).encode text = Except.error exn →
      (e.get_embedding_and_usage env text).2.2 = Outcome.raised exn ∧
        (⟨LogLevel.error, "Embedding generation failed: " ++ exn.msg⟩ :
            LogEntry) ∈ (e.get_embedding_and_usage env text).2.1) ∧
    (∀ c, (e.get_embedding_and_usage env text).2.2 ≠ Outcome.exited c) ∧
    (∀ r, (e.get_embedding_and_usage env text).2.2 = Outcome.ok r →
      ((e.model env).2.1).encode text = Except.ok r.1 ∧
        r.1.length = config.embedder_dim) := by
  rcases hm : e.model env with ⟨e₁, m, logs⟩
  refine ⟨?_, ?_, ?_⟩
  · intro exn henc
    have henc' : m.encode text = Except.error exn := by simpa [hm] using henc
    simp [HfEmbedder.get_embedding_and_usage, hm, henc']
  · intro c
    cases henc : m.encode text with
    | error exn => simp [HfEmbedder.get_embedding_and_usage, hm, henc]
    | ok l =>
      by_cases hl : l.length = config.embedder_dim
      · simp [HfEmbedder.get_embedding_and_usage, hm, henc, hl]
      · simp [HfEmbedder.get_embedding_and_usage, hm, henc, hl]
  · intro r hr
    cases henc : m.encode text with
    | error exn =>
      simp [HfEmbedder.get_embedding_and_usage, hm, henc] at hr
    | ok l =>
      by_cases hl : l.length = config.embedder_dim
      · simp [HfEmbedder.get_embedding_and_usage, hm, henc, hl] at hr
        subst hr
        simp [hm, henc, hl]
      · simp [HfEmbedder.get_embedding_and_usage, hm, henc, hl] at hr

/-- Witness for C8: a concrete encoder exception comes back to the caller
unchanged. -/
theorem embedding_error_reraised_witness :
    (HfEmbedder.get_embedding_and_usage {} errEnv "q").2.2 =
      Outcome.raised (Exn.otherError "boom") :=
  ((embedding_error_reraised errEnv {} "q").1 (Exn.otherError "boom") rfl).1

/-- C10: whenever `get_embedding_and_usage` succeeds, the returned usage
metadata is exactly `{"model": model_name, "usage": {"total_tokens": 0}}`,
independently of the text and the embedding. -/
theorem usage_metadata_constant {α : Type} (env : HfEnv α)
    (e : HfEmbedder α) (text : String) (emb : List α) (u : EmbedUsage)
    (e' : HfEmbedder α) (logs : List LogEntry)
    (h : e.get_embedding_and_usage env text = (e', logs, .ok (emb, u))) :
    u = ⟨e.model_name, 0⟩ := by
  rcases hm : e.model env with ⟨e₁, m, l₀⟩
  cases henc : m.encode text with
  | error exn =>
    simp [HfEmbedder.get_embedding_and_usage, hm, henc] at h
  | ok l =>
    by_cases hl : l.length = config.embedder_dim
    · simp [HfEmbedder.get_embedding_and_usage, hm, henc, hl] at h
      exact h.2.2.2.symm
    · simp [HfEmbedder.get_embedding_and_usage, hm, henc, hl] at h

set_option maxRecDepth 4000 in
/-- Witness for C10: on a successful concrete call the usage metadata is
the constant record for the default model name. -/
theorem usage_metadata_constant_witness :
    (⟨"all-MiniLM-L6-v2", 0⟩ : EmbedUsage) =
      ⟨(({} : HfEmbedder Int)).model_name, 0⟩ :=
  usage_metadata_constant goodEnv {} "q" (List.replicate 384 0) _ _ _ rfl

/-- A database environment in which every operation succeeds. -/
def dbOkEnv : DbEnv := ⟨Except.ok (), Except.ok (), Except.ok ()⟩

/-- A database environment whose connection attempt raises a
`SQLAlchemyError`. -/
def dbFailEnv : DbEnv :=
  ⟨Except.error (Exn.sqlAlchemyError "connection refused"), Except.ok (),
    Except.ok ()⟩

/-- A knowledge-base environment whose `load` call always raises. -/
def kbFailEnv : KbEnv Int := ⟨fun _ _ => Except.error (Exn.otherError "load failed")⟩

/-- A knowledge-base environment whose `load` call always succeeds. -/
def kbOkEnv : KbEnv Int := ⟨fun _ _ => Except.ok ()⟩

/-- `setup_database` caught a database error: one of its three database
operations raised a `SQLAlchemyError` (earlier ones succeeding). -/
def DbEnv.failsWithSQLAlchemyError (env : DbEnv) : Prop :=
  (∃ ex, env.connectResult = Except.error ex ∧ ex.isSQLAlchemyError) ∨
  (env.connectResult = Except.ok () ∧
    ∃ ex, env.executeResult = Except.error ex ∧ ex.isSQLAlchemyError) ∨
  (env.connectResult = Except.ok () ∧ env.executeResult = Except.ok () ∧
    ∃ ex, env.commitResult = Except.error ex ∧ ex.isSQLAlchemyError)

/-- C2: when `setup_database` catches a database error it logs the error
and exits the process with status 1, and when `create_knowledge_base`'s
load raises any exception it logs the error and exits with status 1; in
both cases the function neither re-raises nor returns normally. -/
theorem setup_db_and_kb_exit_on_failure {α : Type} (env : DbEnv)
    (kenv : KbEnv α) (vdb : PgVector2 α) :
    (DbEnv.failsWithSQLAlchemyError env →
      (setup_database env).2.2 = Outcome.exited 1 ∧
        ∃ m, (⟨LogLevel.error, m⟩ : LogEntry) ∈ (setup_database env).1) ∧
    (∀ ex, kenv.load { urls := [pdfUrl], vector_db := vdb } false =
        Except.error ex →
      (create_knowledge_base kenv vdb).2 = Outcome.exited 1 ∧
        (⟨LogLevel.error, "Knowledge base creation failed: " ++ ex.msg⟩ :
            LogEntry) ∈ (create_knowledge_base kenv vdb).1) := by
  constructor
  · rintro (⟨ex, hc, hsql⟩ | ⟨hc, ex, hx, hsql⟩ | ⟨hc, hx, ex, hk, hsql⟩)
    · refine ⟨?_, "Database setup failed: " ++ ex.msg, ?_⟩ <;>
        simp [setup_database, hc, hsql]
    · refine ⟨?_, "Database setup failed: " ++ ex.msg, ?_⟩ <;>
        simp [setup_database, hc, hx, hsql]
    · refine ⟨?_, "Database setup failed: " ++ ex.msg, ?_⟩ <;>
        simp [setup_database, hc, hx, hk, hsql]
  · intro ex hload
    constructor <;> simp [create_knowledge_base, hload]

/-- Witness for C2: a failing connection makes `setup_database` exit with
status 1, and a failing load makes `create_knowledge_base` exit with
status 1. -/
theorem setup_db_and_kb_exit_on_failure_witness :
    (setup_database dbFailEnv).2.2 = Outcome.exited 1 ∧
    (create_knowledge_base kbFailEnv (create_vector_db Int)).2 =
      Outcome.exited 1 :=
  ⟨((setup_db_and_kb_exit_on_failure dbFailEnv kbFailEnv
        (create_vector_db Int)).1
      (Or.inl ⟨Exn.sqlAlchemyError "connection refused", rfl, rfl⟩)).1,
    ((setup_db_and_kb_exit_on_failure dbFailEnv kbFailEnv
        (create_vector_db Int)).2
      (Exn.otherError "load failed") rfl).1⟩

/-- C9: on every run, `setup_database` opens exactly one connection whose
event trace is an initial portion of the single scoped sequence
connect, execute "CREATE EXTENSION IF NOT EXISTS vector", commit, close
(with close moved up on failure inside the scope), and on a normal return
the trace is exactly that four-event sequence, so no other statement is
ever executed. -/
theorem setup_database_single_connection (env : DbEnv) :
    ((setup_database env).2.1 = [DbEvent.connect] ∨
      (setup_database env).2.1 =
        [DbEvent.connect, DbEvent.execute vectorExtensionSql, DbEvent.close] ∨
      (setup_database env).2.1 =
        [DbEvent.connect, DbEvent.execute vectorExtensionSql, DbEvent.commit,
          DbEvent.close]) ∧
    ((setup_database env).2.2 = Outcome.ok () →
      (setup_database env).2.1 =
        [DbEvent.connect, DbEvent.execute vectorExtensionSql, DbEvent.commit,
          DbEvent.close]) := by
  rcases env with ⟨c, x, k⟩
  rcases c with ec | _
  · by_cases h : ec.isSQLAlchemyError <;> simp [setup_database, h]
  · rcases x with ex | _
    · by_cases h : ex.isSQLAlchemyError <;> simp [setup_database, h]
    · rcases k with ek | _
      · by_cases h : ek.isSQLAlchemyError <;> simp [setup_database, h]
      · simp [setup_database]

/-- Witness for C9: with every operation succeeding, the connection trace
is exactly connect–execute–commit–close. -/
theorem setup_database_single_connection_witness :
    (setup_database dbOkEnv).2.1 =
      [DbEvent.connect, DbEvent.execute vectorExtensionSql, DbEvent.commit,
        DbEvent.close] :=
  (setup_database_single_connection dbOkEnv).2 rfl

/-- The complete ordered step trace of a run of `main` that reaches the
interactive loop, for a given session-resolution result. -/
def fullMainTrace (new_session : Bool) (user_id : String)
    (run_id : Option String) : List MainEvent :=
  [.setupDatabase, .createVectorDb, .createKnowledgeBase,
      .mkStorage config.table_name config.db_url] ++
    (if new_session then [] else [.getAllRunIds user_id]) ++
    [.mkAssistant run_id user_id, .cliApp]

/-- A world in which every external call succeeds and the storage holds
the single run ID "run1" for every user. -/
def worldOk : World Int := ⟨dbOkEnv, kbOkEnv, fun _ => ["run1"]⟩

/-- C5: `main` performs its setup steps in the fixed order database setup,
vector store construction, knowledge-base loading, storage construction,
session resolution, assistant construction, and only then the interactive
loop: every run's step trace is either cut short by an exit in database
setup, cut short by an exit in knowledge-base loading, or is the complete
ordered trace; a run that returns normally produced the complete trace. -/
theorem main_step_order {α : Type} (w : World α) (ns : Bool) (uid : String) :
    ((main w ns uid).2.1 = [MainEvent.setupDatabase] ∨
      (main w ns uid).2.1 =
        [MainEvent.setupDatabase, MainEvent.createVectorDb,
          MainEvent.createKnowledgeBase] ∨
      ∃ rid, (main w ns uid).2.1 = fullMainTrace ns uid rid) ∧
    ((main w ns uid).2.2 = Outcome.ok () →
      ∃ rid, (main w ns uid).2.1 = fullMainTrace ns uid rid) := by
  rcases hdb : setup_database w.db with ⟨l₁, dbev, o₁⟩
  cases o₁ with
  | exited c => constructor <;> simp [main, hdb]
  | raised e => constructor <;> simp [main, hdb]
  | ok u =>
    rcases hkb : create_knowledge_base w.kb (create_vector_db α) with ⟨l₂, o₂⟩
    cases o₂ with
    | exited c => constructor <;> simp [main, hdb, hkb]
    | raised e => constructor <;> simp [main, hdb, hkb]
    | ok kb =>
      cases ns with
      | true =>
        refine ⟨Or.inr (Or.inr ⟨none, ?_⟩), fun _ => ⟨none, ?_⟩⟩ <;>
          simp [main, hdb, hkb, fullMainTrace]
      | false =>
        cases hr : w.run_ids uid with
        | nil =>
          refine ⟨Or.inr (Or.inr ⟨none, ?_⟩), fun _ => ⟨none, ?_⟩⟩ <;>
            simp [main, hdb, hkb, hr, fullMainTrace]
        | cons r rest =>
          refine ⟨Or.inr (Or.inr ⟨some r, ?_⟩), fun _ => ⟨some r, ?_⟩⟩ <;>
            simp [main, hdb, hkb, hr, fullMainTrace]

/-- Witness for C5: in the all-success world the run returns normally and
its trace is the complete ordered trace. -/
theorem main_step_order_witness :
    ∃ rid, (main worldOk false "default_user").2.1 =
      fullMainTrace false "default_user" rid :=
  (main_step_order worldOk false "default_user").2 rfl

/-- C4: when setup succeeds, a `main` run with `new_session = false` and at
least one stored run ID constructs the `Assistant` with `run_id` the first
stored ID (resuming), while `new_session = true` or an empty run-ID list
yields `run_id = none` (a fresh session); the step trace shows exactly that
assistant construction. -/
theorem session_resume_or_create {α : Type} (w : World α) (uid : String)
    (hdb : (setup_database w.db).2.2 = Outcome.ok ())
    (hkb : w.kb.load { urls := [pdfUrl], vector_db := create_vector_db α }
        false = Except.ok ()) :
    (∀ r rest, w.run_ids uid = r :: rest →
      (main w false uid).2.1 = fullMainTrace false uid (some r)) ∧
    (w.run_ids uid = [] →
      (main w false uid).2.1 = fullMainTrace false uid none) ∧
    (main w true uid).2.1 = fullMainTrace true uid none := by
  rcases hdb' : setup_database w.db with ⟨l₁, dbev, o₁⟩
  rw [hdb'] at hdb
  simp at hdb
  subst hdb
  have hkb' : create_knowledge_base w.kb (create_vector_db α) =
      ([⟨.info, "Creating knowledge base"⟩,
          ⟨.info, "Loading documents into vector database"⟩],
        Outcome.ok { urls := [pdfUrl], vector_db := create_vector_db α }) := by
    simp [create_knowledge_base, hkb]
  refine ⟨?_, ?_, ?_⟩
  · intro r rest hr
    simp [main, hdb', hkb', hr, fullMainTrace]
  · intro hr
    simp [main, hdb', hkb', hr, fullMainTrace]
  · simp [main, hdb', hkb', fullMainTrace]

/-- Witness for C4: in the all-success world holding run ID "run1", the
resumed run's trace constructs the assistant with `run_id = some "run1"`,
and a `new_session = true` run constructs it with `run_id = none`. -/
theorem session_resume_or_create_witness :
    (main worldOk false "u").2.1 = fullMainTrace false "u" (some "run1") ∧
    (main worldOk true "u").2.1 = fullMainTrace true "u" none :=
  ⟨(session_resume_or_create worldOk "u" rfl rfl).1 "run1" [] rfl,
    (session_resume_or_create worldOk "u" rfl rfl).2.2⟩

/-- The empty process environment: no variable set. -/
def emptyEnv : EnvMap := ⟨fun _ => none⟩

/-- A process environment (e.g. from a `.env` file) that overrides the
collection name. -/
def envWithCollection : EnvMap :=
  ⟨fun k => if k = "COLLECTION_NAME" then some "space_docs" else none⟩

/-- C6: the configuration defaults are exactly the documented values: both
`AppConfig()` (the record the assistant module builds) and `Settings()`
over an empty environment yield the database URL
"postgresql+psycopg://ai:ai@localhost:5532/ai", model "all-MiniLM-L6-v2",
dimension 384, collection "science_docs" and table "science_assistant". -/
theorem config_defaults :
    config =
      { db_url := "postgresql+psycopg://ai:ai@localhost:5532/ai"
        collection_name := "science_docs"
        embedder_model := "all-MiniLM-L6-v2"
        embedder_dim := 384
        table_name := "science_assistant" } ∧
    loadSettings emptyEnv =
      Except.ok
        { DB_URL := "postgresql+psycopg://ai:ai@localhost:5532/ai"
          EMBEDDER_MODEL := "all-MiniLM-L6-v2"
          EMBEDDING_DIM := 384
          COLLECTION_NAME := "science_docs"
          TABLE_NAME := "science_assistant" } :=
  ⟨rfl, rfl⟩

/-- Counterexample to C3: with "COLLECTION_NAME=space_docs" set in the
environment (as a `.env` file would), the configuration record the running
program uses (`config = AppConfig()` in assistant.py) still holds the
hard-coded default "science_docs", not the environment value. -/
theorem running_config_ignores_env_cex :
    envWithCollection.get "COLLECTION_NAME" = some "space_docs" ∧
    (assistant_config envWithCollection).collection_name = "science_docs" ∧
    (assistant_config envWithCollection).collection_name ≠ "space_docs" :=
  ⟨rfl, rfl, by decide⟩

/-- C3 (amended): values set in the environment/`.env` file are reflected
in the `Settings` record of config.py (each field overrides its default,
`EMBEDDING_DIM` after integer parsing), but the configuration record the
running program uses (`AppConfig()` in assistant.py) ignores the
environment and always equals the defaults. -/
theorem settings_env_vs_running_config (env : EnvMap) :
    assistant_config env = config ∧
    (∀ v s, env.get "DB_URL" = some v → loadSettings env = Except.ok s →
      s.DB_URL = v) ∧
    (∀ v s, env.get "EMBEDDER_MODEL" = some v →
      loadSettings env = Except.ok s → s.EMBEDDER_MODEL = v) ∧
    (∀ v n s, env.get "EMBEDDING_DIM" = some v → v.toInt? = some n →
      loadSettings env = Except.ok s → s.EMBEDDING_DIM = n) ∧
    (∀ v s, env.get "COLLECTION_NAME" = some v →
      loadSettings env = Except.ok s → s.COLLECTION_NAME = v) ∧
    (∀ v s, env.get "TABLE_NAME" = some v → loadSettings env = Except.ok s →
      s.TABLE_NAME = v) := by
  have hload : ∀ s, loadSettings env = Except.ok s →
      s.DB_URL = (env.get "DB_URL").getD
          "postgresql+psycopg://ai:ai@localhost:5532/ai" ∧
      s.EMBEDDER_MODEL = (env.get "EMBEDDER_MODEL").getD "all-MiniLM-L6-v2" ∧
      s.COLLECTION_NAME = (env.get "COLLECTION_NAME").getD "science_docs" ∧
      s.TABLE_NAME = (env.get "TABLE_NAME").getD "science_assistant" := by
    intro s hs
    simp only [loadSettings] at hs
    rcases hd : env.get "EMBEDDING_DIM" with _ | v <;> simp only [hd] at hs
    · cases hs
      exact ⟨rfl, rfl, rfl, rfl⟩
    · rcases hn : v.toInt? with _ | n <;> simp only [hn] at hs
      · cases hs
      · cases hs
        exact ⟨rfl, rfl, rfl, rfl⟩
  refine ⟨rfl, ?_, ?_, ?_, ?_, ?_⟩
  · intro v s hv hs
    rw [(hload s hs).1, hv]
    rfl
  · intro v s hv hs
    rw [(hload s hs).2.1, hv]
    rfl
  · intro v n s hv hn hs
    simp only [loadSettings, hv, hn] at hs
    cases hs
    rfl
  · intro v s hv hs
    rw [(hload s hs).2.2.1, hv]
    rfl
  · intro v s hv hs
    rw [(hload s hs).2.2.2, hv]
    rfl

/-- Witness for C3 (amended): with the collection name overridden in the
environment, the running program's record still equals the defaults while
the `Settings` record picks up the override. -/
theorem settings_env_vs_running_config_witness :
    assistant_config envWithCollection = config ∧
    ({ DB_URL := "postgresql+psycopg://ai:ai@localhost:5532/ai"
       EMBEDDER_MODEL := "all-MiniLM-L6-v2"
       EMBEDDING_DIM := 384
       COLLECTION_NAME := "space_docs"
       TABLE_NAME := "science_assistant" } : Settings).COLLECTION_NAME =
      "space_docs" :=
  ⟨(settings_env_vs_running_config envWithCollection).1,
    (settings_env_vs_running_config envWithCollection).2.2.2.2.1
      "space_docs" _ rfl rfl⟩

end KnowledgeAI
